import Mathlib

/-!
Verification of the hybrid risk-scoring and decision engine of the
Web3 Risk Guard browser extension (src/extension/background.js,
src/extension/content.js, src/extension/popup.js).

JavaScript strings are embedded as lists of characters (JStr); JS
numbers that only ever hold integer values are embedded as naturals;
the weighted-score arithmetic (binary64 literals 0.35 / 0.30 / 0.35
times the components) is embedded exactly: the weights as the precise
rational values of their binary64 literals, every product and
left-associated addition rounded to 53 significant bits with round to
nearest, ties to even, via scaled-integer arithmetic (jsWeightedNum),
and JS Math.round as the half-up rounding of the resulting double's
exact value, matching round in Mathlib.  Other JS numbers (confidence
values, cache timestamps) are only compared and stored, so they are
embedded as the exact rationals or naturals they denote; the one other
float multiplication, confidence x 100 inside a cosmetic reason
string, is embedded as exact rational arithmetic.  Fallible
operations return Option.  The network is embedded
as an explicit oracle argument, and the two TTL caches as explicit
state threaded through each call; each stateful function additionally
reports whether it issued an external call.
-/

/-- JavaScript string, embedded as its list of characters. -/
abbrev JStr := List Char

/-- JS String.prototype.slice(a, b) for 0 <= a <= b (the only form the
engine uses): the characters from index a up to, but excluding, index b,
clamped to the length of the string. -/
def jsSlice (s : JStr) (a b : Nat) : JStr :=
  (s.drop a).take (b - a)

/-- JS String.prototype.toLowerCase restricted to the ASCII range, which
is all the engine ever lowercases (hex strings, 0x-addresses, method
names, JSON payload text). -/
def toLowerStr (s : JStr) : JStr :=
  s.map Char.toLower

/-- Truthiness of a JS string-or-null value: null/undefined and the
empty string are falsy, every other string is truthy. -/
def optTruthy : Option JStr → Bool
  | none => false
  | some l => !l.isEmpty

/-- Decides whether a list starts with the given initial segment
(JS String.prototype.startsWith for the needles used in the engine). -/
def headMatches : JStr → JStr → Bool
  | [], _ => true
  | _ :: _, [] => false
  | c :: cs, d :: ds => c = d && headMatches cs ds

/-- JS String.prototype.includes: naive substring scan. -/
def strContains (hay needle : JStr) : Bool :=
  match hay with
  | [] => needle.isEmpty
  | _ :: t => headMatches needle hay || strContains t needle

/-- ASCII hex digit test, the digits accepted by JS BigInt("0x..."). -/
def hexDigit (c : Char) : Bool :=
  c.isDigit || ('a' ≤ c && c ≤ 'f') || ('A' ≤ c && c ≤ 'F')

/-- Value of one hex digit (0 on non-digits; only applied under an
all-hex guard). -/
def hexCharVal (c : Char) : Nat :=
  if c.isDigit then c.toNat - '0'.toNat
  else if 'a' ≤ c && c ≤ 'f' then c.toNat - 'a'.toNat + 10
  else if 'A' ≤ c && c ≤ 'F' then c.toNat - 'A'.toNat + 10
  else 0

/-- Value of a big-endian string of hex digits. -/
def hexVal (ds : JStr) : Nat :=
  ds.foldl (fun acc c => 16 * acc + hexCharVal c) 0

/-- Value of a big-endian string of decimal digits. -/
def decVal (ds : JStr) : Nat :=
  ds.foldl (fun acc c => 10 * acc + hexCharVal c) 0

/-- From src/extension/background.js, hexToBigInt (lines 252-259):
returns null for a non-string or empty (falsy) input, otherwise
BigInt(hex) with any parse failure caught and turned into null.
BigInt on a string with a literal 0x prefix accepts one or more hex
digits and nothing else ("0x" alone throws); every call site in the
file passes a string with a literal "0x" prefix, and the final branch
embeds BigInt on a plain decimal-digit string for completeness. -/
def hexToBigInt (hex : Option JStr) : Option Nat :=
  match hex with
  | none => none
  | some l =>
    if l.isEmpty then none
    else if l.take 2 = ['0', 'x'] then
      let ds := l.drop 2
      if ds.isEmpty then none
      else if ds.all hexDigit then some (hexVal ds) else none
    else if l.all Char.isDigit then some (decVal l) else none

/-- From src/extension/background.js, isUnlimitedApproval (lines
261-267): an approval amount counts as unlimited when it exceeds 95% of
the maximum uint256, computed with BigInt floor division
(max * 95n) / 100n. -/
def isUnlimitedApproval (amountHex : Option JStr) : Bool :=
  match hexToBigInt amountHex with
  | none => false
  | some v => decide (v > ((2 ^ 256 - 1) * 95) / 100)

/-- Result shape of decodeTxData and of the decoded field that
getHeuristicScore attaches to its result: the fn tag together with the
per-shape details object. unknownEmpty is the malformed-payload result
with empty details, unknownSel the unrecognized-selector result. fnTag
is the bare object with only an fn field that the WALLET_REQUEST
handler builds for its interim simulation-warning analysis. -/
inductive Decoded where
  | approve (spender amountHex : JStr)
  | setApprovalForAll (operator : JStr) (enabled : Bool)
  | unknownEmpty
  | unknownSel (selector : JStr)
  | typedData
  | rawSign
  | connect
  | other (method : String)
  | fnTag (fn : String)
deriving DecidableEq

/-- The fn string carried by each decoded shape. -/
def Decoded.fn : Decoded → String
  | .approve _ _ => "approve"
  | .setApprovalForAll _ _ => "setApprovalForAll"
  | .unknownEmpty => "unknown"
  | .unknownSel _ => "unknown"
  | .typedData => "typedData"
  | .rawSign => "rawSign"
  | .connect => "connect"
  | .other _ => "other"
  | .fnTag f => f

/-- From src/extension/background.js, decodeTxData (lines 269-294): a
non-string, empty, non-0x-prefixed or shorter-than-10-character payload
decodes to unknown; selector 0x095ea7b3 (case-insensitive) decodes to
approve with spender = "0x" + data.slice(34, 74) and amountHex =
"0x" + data.slice(74, 138); selector 0xa22cb465 decodes to
setApprovalForAll with operator = "0x" + data.slice(34, 74) and
enabled = (hexToBigInt of the second word === 1n); any other selector
decodes to unknown carrying the lowercased selector. -/
def decodeTxData (data : Option JStr) : Decoded :=
  match data with
  | none => .unknownEmpty
  | some d =>
    if d.isEmpty || !headMatches ['0', 'x'] d || d.length < 10 then
      .unknownEmpty
    else
      let selector := toLowerStr (jsSlice d 0 10)
      if selector = ('0' :: 'x' :: ['0', '9', '5', 'e', 'a', '7', 'b', '3']) then
        .approve ('0' :: 'x' :: jsSlice d 34 74) ('0' :: 'x' :: jsSlice d 74 138)
      else if selector = ('0' :: 'x' :: ['a', '2', '2', 'c', 'b', '4', '6', '5']) then
        .setApprovalForAll ('0' :: 'x' :: jsSlice d 34 74)
          (hexToBigInt (some ('0' :: 'x' :: jsSlice d 74 138)) = some 1)
      else .unknownSel selector

example : decodeTxData none = .unknownEmpty := by decide

example : (decodeTxData (some ("0x095ea7b3".toList))).fn = "approve" := by decide

/-- One record of the externally supplied blacklist data source
(data/darklist.json): an address plus optional comment and date. -/
structure DarklistEntry where
  address : JStr
  comment : Option String
  date : Option String
deriving DecidableEq

/-- From src/extension/background.js, loadDarklist (lines 10-29): the
DARKLIST set, built by lowercasing the address of every loaded entry. -/
def darklistSet (entries : List DarklistEntry) : List JStr :=
  entries.map (fun e => toLowerStr e.address)

/-- From src/extension/background.js, loadDarklist (lines 10-29): the
DARKLIST_INFO comment stored for a (lowercased) address: the comment of
the last matching entry, defaulting to "Known malicious address".
Returns none when the address was never loaded. -/
def darklistComment (entries : List DarklistEntry) (addr : JStr) : Option String :=
  match entries.reverse.find? (fun e => toLowerStr e.address = addr) with
  | none => none
  | some e => some (e.comment.getD ("Known malicious address"))

/-- From src/extension/background.js, checkDarklist (lines 31-45):
non-string or empty (falsy) addresses are not blacklisted; otherwise
the lowercased address is looked up in the loaded set. Returns the
isBlacklisted flag. -/
def checkDarklist (entries : List DarklistEntry) (address : Option JStr) : Bool :=
  match address with
  | none => false
  | some a =>
    if a.isEmpty then false
    else decide (toLowerStr a ∈ darklistSet entries)

/-- A wallet RPC request as seen by the scoring engine. params is an
opaque JS array; the three derived views of it that
getHeuristicScore actually reads are embedded as fields:
txData is params[0].data when params[0] is an object with a string
data field (none for a non-string or absent data); typedStr is
params[1] when it is a string; typedSpender embeds
JSON.parse(typedStr)?.message?.spender || null, i.e. it is none when
the parse fails, the field is absent, or the field is falsy, and it is
only consulted when typedStr is present; paramsJoined embeds
params.join(" "). -/
structure WalletReq where
  method : String
  txData : Option JStr := none
  typedStr : Option JStr := none
  typedSpender : Option JStr := none
  paramsJoined : JStr := []
deriving DecidableEq

/-- Result of getHeuristicScore: rule-based score, ordered reasons,
decoded intent and the extracted spender/operator address (null when
none was extracted). -/
structure HeuristicOut where
  score : Nat
  reasons : List String
  decoded : Decoded
  spenderAddress : Option JStr
deriving DecidableEq

/-- From src/extension/background.js, getHeuristicScore (lines
300-399): rule-based scoring per method.  Transactions decode their
calldata: approve scores 80, raised to 95 when the amount is an
unlimited approval; setApprovalForAll(true) scores 95 and
setApprovalForAll(false) 20; other calldata scores 30.
eth_signTypedData_v4 scores 70, raised to 85 when the typed-data
string contains permit2/permit/spender/value (case-insensitive), and
extracts message.spender when the payload parses. personal_sign and
eth_sign score 40, raised to 70 when the joined params contain
permit/approve/spender. eth_requestAccounts scores 10, any other
method 15. -/
def getHeuristicScore (req : WalletReq) : HeuristicOut :=
  if req.method = "eth_sendTransaction" || req.method = "eth_sendRawTransaction" then
    let decoded := decodeTxData req.txData
    match decoded with
    | .approve spender amountHex =>
      if isUnlimitedApproval (some amountHex) then
        { score := 95
          reasons := ["ERC20 approval transaction requested",
                      "⚠️ UNLIMITED token approval detected"]
          decoded := decoded, spenderAddress := some spender }
      else
        { score := 80, reasons := ["ERC20 approval transaction requested"]
          decoded := decoded, spenderAddress := some spender }
    | .setApprovalForAll operator enabled =>
      if enabled then
        { score := 95, reasons := ["⚠️ NFT setApprovalForAll(true) detected"]
          decoded := decoded, spenderAddress := some operator }
      else
        { score := 20, reasons := ["NFT approval revoked (setApprovalForAll(false))"]
          decoded := decoded, spenderAddress := some operator }
    | _ =>
      { score := 30, reasons := ["Transaction requested (unknown contract call)"]
        decoded := decoded, spenderAddress := none }
  else if req.method = "eth_signTypedData_v4" then
    match req.typedStr with
    | some ts =>
      let lower := toLowerStr ts
      let spenderAddress := req.typedSpender
      if strContains lower ("permit2".toList) || strContains lower ("permit".toList)
          || strContains lower ("spender".toList) || strContains lower ("value".toList) then
        { score := 85
          reasons := ["Typed-data signature requested (eth_signTypedData_v4)",
                      "⚠️ Typed-data resembles permit/approval intent"]
          decoded := .typedData, spenderAddress := spenderAddress }
      else
        { score := 70
          reasons := ["Typed-data signature requested (eth_signTypedData_v4)"]
          decoded := .typedData, spenderAddress := spenderAddress }
    | none =>
      { score := 70
        reasons := ["Typed-data signature requested (eth_signTypedData_v4)"]
        decoded := .typedData, spenderAddress := none }
  else if req.method = "personal_sign" || req.method = "eth_sign" then
    let payload := toLowerStr req.paramsJoined
    if strContains payload ("permit".toList) || strContains payload ("approve".toList)
        || strContains payload ("spender".toList) then
      { score := 70
        reasons := [req.method ++ " signature requested",
                    "Signature text contains approval-like keywords"]
        decoded := .rawSign, spenderAddress := none }
    else
      { score := 40, reasons := [req.method ++ " signature requested"]
        decoded := .rawSign, spenderAddress := none }
  else if req.method = "eth_requestAccounts" then
    { score := 10, reasons := ["Wallet connection requested"]
      decoded := .connect, spenderAddress := none }
  else
    { score := 15, reasons := ["Wallet RPC method requested"]
      decoded := .other req.method, spenderAddress := none }

example : (getHeuristicScore { method := "eth_requestAccounts" }).score = 10 := by decide

/-- A normalized ML signal result, the value cached in mlScoreCache and
returned by getMLScore.  The three shapes the source builds (success,
no-address, API-error) populate different subsets of the fields;
absent JS fields are embedded as none / false / 0 / []. -/
structure MLResult where
  score : Nat := 0
  prediction : Option String := none
  confidence : Option ℚ := none
  goplusFlags : List String := []
  isHoneypot : Bool := false
  mlScore : Nat := 0
  goplusScore : Nat := 0
  timestamp : Option Nat := none
  error : Option String := none
  fallback : Bool := false
deriving DecidableEq

/-- Raw JSON body of a successful ML API response; every field may be
absent. -/
structure MLApiData where
  score : Option Nat := none
  prediction : Option String := none
  confidence : Option ℚ := none
  goplus_flags : Option (List String) := none
  is_honeypot : Option Bool := none
  ml_score : Option Nat := none
  goplus_score : Option Nat := none
deriving DecidableEq

/-- The mlScoreCache map, keyed by lowercased address. -/
abbrev MLCache := JStr → Option MLResult

/-- Map.set on a string-keyed cache. -/
def jsMapSet {β : Type} (m : JStr → Option β) (k : JStr) (v : β) : JStr → Option β :=
  fun x => if x = k then some v else m x

/-- The empty cache. -/
def emptyCache {β : Type} : JStr → Option β := fun _ => none

/-- ML cache TTL: 5 minutes in milliseconds (src/extension/background.js
line 65). -/
def ML_CACHE_TTL : Nat := 5 * 60 * 1000

/-- Simulation cache TTL: 5 minutes in milliseconds
(src/extension/background.js line 69). -/
def SIM_CACHE_TTL : Nat := 5 * 60 * 1000

/-- Result of one getMLScore call: the returned value, the cache after
the call, and whether an external API call was issued. -/
structure MLFetchOut where
  result : MLResult
  cache : MLCache
  called : Bool

/-- Freshness test of a cached ML entry, from
src/extension/background.js line 82: Date.now() - cached.timestamp <
ML_CACHE_TTL (cached entries always carry a timestamp). -/
def mlCacheFresh (c : MLResult) (now : Nat) : Bool :=
  match c.timestamp with
  | some t => decide (now - t < ML_CACHE_TTL)
  | none => false

/-- Normalization of a successful ML API response body, from
src/extension/background.js lines 102-111: each field defaulted with
|| against 0 / "UNKNOWN" / [] / false, timestamp set to the fetch
time. -/
def normalizeML (d : MLApiData) (now : Nat) : MLResult :=
  { score := d.score.getD 0
    prediction := some (d.prediction.getD ("UNKNOWN"))
    confidence := some (d.confidence.getD 0)
    goplusFlags := d.goplus_flags.getD []
    isHoneypot := d.is_honeypot.getD false
    mlScore := d.ml_score.getD 0
    goplusScore := d.goplus_score.getD 0
    timestamp := some now }

/-- The cache-miss path of getMLScore (fetch, normalize, cache), from
src/extension/background.js lines 87-123: a successful response is
normalized and stored under the lowercased address; any thrown error
(timeout abort, transport failure, non-ok status, JSON parse failure)
is caught and turned into a score-0 result with error and fallback set,
which is not stored in the cache. -/
def mlFetch (normalized : JStr) (cache : MLCache) (now : Nat)
    (api : Except String MLApiData) : MLFetchOut :=
  match api with
  | .ok d =>
    let result := normalizeML d now
    { result := result, cache := jsMapSet cache normalized result, called := true }
  | .error msg =>
    { result := { score := 0, error := some msg, fallback := true }
      cache := cache, called := true }

/-- From src/extension/background.js, getMLScore (lines 75-124): a
falsy address short-circuits to a no-address error result with no
cache access; otherwise the cache is consulted under the lowercased
address and a fresh entry is returned as-is with no external call;
on a miss (or stale entry) the API is called. The network outcome is
passed in as the api oracle argument. -/
def getMLScore (address : Option JStr) (cache : MLCache) (now : Nat)
    (api : Except String MLApiData) : MLFetchOut :=
  match address with
  | none =>
    { result := { score := 0, error := some ("No address provided") }
      cache := cache, called := false }
  | some a =>
    if a.isEmpty then
      { result := { score := 0, error := some ("No address provided") }
        cache := cache, called := false }
    else
      let normalized := toLowerStr a
      match cache normalized with
      | some c =>
        if mlCacheFresh c now then { result := c, cache := cache, called := false }
        else mlFetch normalized cache now api
      | none => mlFetch normalized cache now api

/-- A normalized simulation signal result, the value cached in
simulationCache and returned by checkSimulation. -/
structure SimResult where
  is_malicious : Bool := false
  confidence : ℚ := 0
  typosquatting_detected : Bool := false
  similar_to : Option String := none
  risk_factors : List String := []
  timestamp : Option Nat := none
  error : Option String := none
  note : Option String := none
  fallback : Bool := false
deriving DecidableEq

/-- Raw JSON body of a successful simulation API response; every field
may be absent.  risk_factors entries are embedded as the strings the
WALLET_REQUEST handler reduces them to. -/
structure SimApiData where
  is_malicious : Option Bool := none
  confidence : Option ℚ := none
  typosquatting_detected : Option Bool := none
  similar_to : Option String := none
  risk_factors : Option (List String) := none
deriving DecidableEq

/-- The simulationCache map, keyed by page origin. -/
abbrev SimCache := JStr → Option SimResult

/-- Result of one checkSimulation call. -/
structure SimFetchOut where
  result : SimResult
  cache : SimCache
  called : Bool

/-- Network outcome for one simulation API call: a parsed response
body, or a thrown error carrying its message (a timeout abort carries
"aborted" in the message). -/
inductive SimApiOutcome where
  | ok (d : SimApiData)
  | err (msg : String)

/-- Platform URL parsing, new URL(url).origin, embedded for the
http/https page URLs the engine passes: the scheme and host up to the
first path/query/fragment delimiter after "://", lowercased; none when
the string has no "://" separator or an empty scheme or host (the URL
constructor throws). -/
def originSplit : JStr → Option (JStr × JStr)
  | [] => none
  | c :: t =>
    if headMatches [':', '/', '/'] (c :: t) then some ([], t.drop 2)
    else
      match originSplit t with
      | none => none
      | some (pre, post) => some (c :: pre, post)

/-- See originSplit: the canonicalized origin of a URL. -/
def urlOrigin (u : JStr) : Option JStr :=
  match originSplit u with
  | none => none
  | some (scheme, rest) =>
    let host := rest.takeWhile (fun c => c ≠ '/' && c ≠ '?' && c ≠ '#')
    if scheme.isEmpty || host.isEmpty then none
    else some (toLowerStr (scheme ++ [':', '/', '/'] ++ host))

/-- Freshness test of a cached simulation entry, from
src/extension/background.js line 141. -/
def simCacheFresh (c : SimResult) (now : Nat) : Bool :=
  match c.timestamp with
  | some t => decide (now - t < SIM_CACHE_TTL)
  | none => false

/-- The catch block of checkSimulation (src/extension/background.js
lines 185-205): a message containing "aborted" (the 90-second timeout)
yields the assume-safe confidence-70 fallback; any other error yields
the confidence-0 fallback.  Neither is cached. -/
def simCatch (msg : String) : SimResult :=
  if strContains msg.toList ("aborted".toList) then
    { is_malicious := false, confidence := 70
      error := some ("Analysis timeout - site may be complex")
      note := some ("Simulation took too long. Complex sites like wallets are harder to analyze.")
      fallback := true }
  else
    { is_malicious := false, confidence := 0, error := some msg, fallback := true }

/-- Normalization of a successful simulation API response body, from
src/extension/background.js lines 167-174. -/
def normalizeSim (d : SimApiData) (now : Nat) : SimResult :=
  { is_malicious := d.is_malicious.getD false
    confidence := d.confidence.getD 0
    typosquatting_detected := d.typosquatting_detected.getD false
    similar_to := d.similar_to
    risk_factors := d.risk_factors.getD []
    timestamp := some now }

/-- The cache-miss path of checkSimulation (fetch, normalize, cache). -/
def simFetch (normalized : JStr) (cache : SimCache) (now : Nat)
    (api : SimApiOutcome) : SimFetchOut :=
  match api with
  | .ok d =>
    let result := normalizeSim d now
    { result := result, cache := jsMapSet cache normalized result, called := true }
  | .err msg => { result := simCatch msg, cache := cache, called := true }

/-- From src/extension/background.js, checkSimulation (lines 130-206):
a falsy url short-circuits to a no-URL result; an unparseable url
throws inside the try block and lands in the catch (no cache access,
no fetch); otherwise the cache is consulted under the page origin and
a fresh entry is returned as-is with no external call; on a miss or
stale entry the API is called. -/
def checkSimulation (url : Option JStr) (cache : SimCache) (now : Nat)
    (api : SimApiOutcome) : SimFetchOut :=
  match url with
  | none =>
    { result := { is_malicious := false, confidence := 0, error := some ("No URL provided") }
      cache := cache, called := false }
  | some u =>
    if u.isEmpty then
      { result := { is_malicious := false, confidence := 0, error := some ("No URL provided") }
        cache := cache, called := false }
    else
      match urlOrigin u with
      | none => { result := simCatch ("Invalid URL"), cache := cache, called := false }
      | some normalized =>
        match cache normalized with
        | some c =>
          if simCacheFresh c now then { result := c, cache := cache, called := false }
          else simFetch normalized cache now api
        | none => simFetch normalized cache now api

/-- Integer numerator, at scale 2^54, of the binary64 floating-point
literal 0.35 (src/extension/background.js lines 54 and 56): the double
nearest to 0.35 is 6305039478318694 x 2^-54
= 0.34999999999999997779... . -/
def W35num : ℕ := 6305039478318694

/-- Integer numerator, at scale 2^54, of the binary64 literal 0.3
(line 55): the double nearest to 0.3 is 5404319552844595 x 2^-54
= 0.29999999999999998889... . -/
def W30num : ℕ := 5404319552844595

/-- Scoring weight of the heuristic component
(src/extension/background.js line 54): the exact rational value of the
binary64 literal 0.35. -/
def WEIGHTS_heuristic : ℚ := W35num / 2 ^ 54

/-- Scoring weight of the darklist component (line 55): the exact
rational value of the binary64 literal 0.3. -/
def WEIGHTS_darklist : ℚ := W30num / 2 ^ 54

/-- Scoring weight of the ML component (line 56): the exact rational
value of the binary64 literal 0.35. -/
def WEIGHTS_ml : ℚ := W35num / 2 ^ 54

/-- Bit length by fuel recursion; fuel 128 covers every magnitude the
weighted-sum intermediates can reach for exactly representable
inputs. -/
def bitsFuel : ℕ → ℕ → ℕ
  | 0, _ => 0
  | fuel + 1, n => if n = 0 then 0 else bitsFuel fuel (n / 2) + 1

/-- Bit length of a natural number (0 for 0). -/
def natBits (n : ℕ) : ℕ := bitsFuel 128 n

/-- Round a / 2^s to the nearest integer with ties to even — the
IEEE 754 round-to-nearest-even rule on a nonnegative significand. -/
def rne (a s : ℕ) : ℕ :=
  if s = 0 then a
  else
    let q := a / 2 ^ s
    let r := a % 2 ^ s
    if r < 2 ^ (s - 1) then q
    else if 2 ^ (s - 1) < r then q + 1
    else if q % 2 = 0 then q else q + 1

/-- Binary64 rounding of a nonnegative dyadic value given by its
integer numerator at a fixed power-of-two scale: the numerator is cut
to 53 significant bits with round-to-nearest-even (scaling by a power
of two changes only the exponent, not the significand, so this is
exact IEEE 754 double rounding whenever the value is zero or in the
normal, non-overflowing range — true of every intermediate of the
weighted sum for the component magnitudes the engine can see). -/
def flNum (n : ℕ) : ℕ :=
  let L := natBits n
  if L ≤ 53 then n
  else rne n (L - 53) * 2 ^ (L - 53)

/-- The binary64 evaluation, as an integer numerator at scale 2^54, of
the source's weighted sum
WEIGHTS.heuristic * h + WEIGHTS.darklist * b + WEIGHTS.ml * m
(src/extension/background.js lines 464-467 and 472-476): each product
and each left-associated addition is rounded to double precision.  At
scale 2^54 every operand is an integer numerator (the weights are
W35num and W30num at that scale, and integer components are exact
doubles), additions of same-scale numerators are exact before
rounding, so binary64 rounding of each intermediate is flNum on its
numerator. -/
def jsWeightedNum (h b m : ℕ) : ℕ :=
  let t1 := flNum (W35num * h)
  let t2 := flNum (W30num * b)
  let t3 := flNum (W35num * m)
  flNum (flNum (t1 + t2) + t3)

/-- The rational value of the binary64 weighted sum. -/
def jsWeightedSum (h b m : ℕ) : ℚ := (jsWeightedNum h b m : ℚ) / 2 ^ 54

/-- The component scores attached to every analysis. -/
structure Components where
  heuristic : Nat
  darklist : Nat
  ml : Nat
deriving DecidableEq

/-- The analysis object the engine stores per tab (the Verdict).
scoreRequest populates score, reasons, decoded, components,
mlPrediction and darklistInfo; the message handlers attach simulation
and, on their interim warning analyses, blocked.  darklistInfo is
embedded by its comment string, the only part the engine composes
into an output. -/
structure Analysis where
  score : Int
  reasons : List String
  decoded : Option Decoded
  components : Components
  mlPrediction : Option String := none
  darklistInfo : Option String := none
  simulation : Option SimResult := none
  blocked : Option Bool := none
deriving DecidableEq

/-- Result of one scoreRequest evaluation: the analysis, the ML cache
after the call, and the observed effects: whether getMLScore was
invoked at all (mlQueried — implies an ML cache read), whether it
issued an external API call (mlCalled), and whether the darklist was
consulted (darklistQueried). In the source the latter two consults sit
under the same truthy-spender guard. -/
structure ScoreOut where
  analysis : Analysis
  mlCache : MLCache
  mlQueried : Bool
  mlCalled : Bool
  darklistQueried : Bool

/-- JS Math.round applied to the exact rational value of a double:
the nearest integer, half toward positive infinity, identical to
round on ℚ (the engine never rounds a negative value). -/
def jsMathRound (q : ℚ) : ℤ := round q

/-- From src/extension/background.js, scoreRequest (lines 405-491).
Step 1: heuristic scoring. Step 2: when a spender/operator address was
extracted (truthy), the darklist is consulted; a hit sets the darklist
component to 100 and appends the blacklist reason. Step 3: under the
same guard the ML signal is fetched through its TTL cache; a
non-error, non-fallback result replaces the heuristic fallback as the
ML component and may append ML/GoPlus/honeypot reasons, while a
fallback result appends the fallback notice.  Step 4: weighted hybrid
score — Math.round of the binary64 evaluation of the weighted sum —
overridden to at least 95 on a darklist hit. -/
def scoreRequest (req : WalletReq) (entries : List DarklistEntry)
    (mlCache : MLCache) (now : Nat) (mlApi : Except String MLApiData) : ScoreOut :=
  let heuristic := getHeuristicScore req
  let spenderTruthy := optTruthy heuristic.spenderAddress
  let blacklisted := spenderTruthy && checkDarklist entries heuristic.spenderAddress
  let darklistScore : Nat := if blacklisted then 100 else 0
  let dlInfo : Option String :=
    if blacklisted then
      some ((darklistComment entries
        (toLowerStr (heuristic.spenderAddress.getD []))).getD ("Known malicious address"))
    else none
  let reasonsDl : List String :=
    match dlInfo with
    | some c => ["🚨 BLACKLISTED ADDRESS: " ++ c]
    | none => []
  let mlStep : Option MLFetchOut :=
    if spenderTruthy then some (getMLScore heuristic.spenderAddress mlCache now mlApi)
    else none
  let mlScore : Nat :=
    match mlStep with
    | some out =>
      if out.result.error = none && out.result.fallback = false then out.result.score
      else heuristic.score
    | none => heuristic.score
  let reasonsMl : List String :=
    match mlStep with
    | some out =>
      if out.result.error = none && out.result.fallback = false then
        (if out.result.prediction = some ("FRAUD")
            && decide ((7 : ℚ) / 10 < out.result.confidence.getD 0) then
          ["🤖 ML Model: " ++ out.result.prediction.getD ("undefined") ++ " ("
            ++ toString (jsMathRound (out.result.confidence.getD 0 * 100)) ++ "% confidence)"]
        else [])
        ++ ((out.result.goplusFlags.filter (fun f => !("✓".isPrefixOf f))).map
              (fun f => "⚠️ GoPlus: " ++ f))
        ++ (if out.result.isHoneypot then ["🚨 HONEYPOT DETECTED - Cannot sell tokens!"] else [])
      else if out.result.fallback then ["ML API unavailable - using heuristic fallback"]
      else []
    | none => []
  let weighted : Int := jsMathRound (jsWeightedSum heuristic.score darklistScore mlScore)
  let finalScore : Int := if darklistScore > 0 then max 95 weighted else weighted
  { analysis :=
      { score := finalScore
        reasons := heuristic.reasons ++ reasonsDl ++ reasonsMl
        decoded := some heuristic.decoded
        components :=
          { heuristic := heuristic.score, darklist := darklistScore, ml := mlScore }
        mlPrediction :=
          match mlStep with
          | some out => out.result.prediction
          | none => none
        darklistInfo := dlInfo }
    mlCache :=
      match mlStep with
      | some out => out.cache
      | none => mlCache
    mlQueried := spenderTruthy
    mlCalled :=
      match mlStep with
      | some out => out.called
      | none => false
    darklistQueried := spenderTruthy }

/-- The badge text and CSS class of a risk score. -/
structure RiskLevel where
  text : String
  cls : String
deriving DecidableEq

/-- From src/extension/popup.js, getRiskLevel (lines 6-11): score >= 80
CRITICAL, >= 60 HIGH RISK, >= 30 MEDIUM, otherwise LOW RISK. -/
def getRiskLevel (score : Int) : RiskLevel :=
  if score ≥ 80 then { text := "CRITICAL", cls := "critical" }
  else if score ≥ 60 then { text := "HIGH RISK", cls := "high" }
  else if score ≥ 30 then { text := "MEDIUM", cls := "medium" }
  else { text := "LOW RISK", cls := "low" }

/-- Outcome of one WALLET_REQUEST message (src/extension/background.js
lines 493-546), for a sender tab with an id: the interim
simulation-warning analysis stored first (when the simulation reports
malicious with confidence >= 85), the final analysis that the
subsequent normal scoring stores over it (last write wins on
latestByTab), the blocked flag of the response sent back, and both
caches after the evaluation. -/
structure WalletRequestOut where
  interim : Option Analysis
  final : Analysis
  responseBlocked : Bool
  mlCache : MLCache
  simCache : SimCache

/-- The interim warning analysis the WALLET_REQUEST handler stores when
the simulation reports malicious with confidence >= 85
(src/extension/background.js lines 510-533). -/
def simWarnAnalysis (method : String) (sim : SimResult) : Analysis :=
  { score := 85
    reasons :=
      ["⚠️ Simulation detected " ++ toString sim.confidence ++ "% malicious confidence"]
        ++ (if sim.typosquatting_detected then
              ["Typosquatting: Site mimics " ++ sim.similar_to.getD ("null")]
            else [])
        ++ sim.risk_factors
    decoded := some (.fnTag method)
    components := { heuristic := 0, darklist := 0, ml := 85 }
    simulation := some sim
    blocked := some false }

/-- From src/extension/background.js, the WALLET_REQUEST branch of the
onMessage listener (lines 493-546): the simulation runs first against
the sender tab URL; a malicious result with confidence >= 85 stores the
interim warning analysis; normal scoring then always proceeds, stores
its analysis (with the simulation result attached) over the interim
one, and responds with blocked: false. -/
def walletRequestHandler (payload : WalletReq) (tabUrl : Option JStr)
    (entries : List DarklistEntry) (mlCache : MLCache) (simCache : SimCache)
    (now : Nat) (simApi : SimApiOutcome) (mlApi : Except String MLApiData) :
    WalletRequestOut :=
  let simOut := checkSimulation tabUrl simCache now simApi
  let sim := simOut.result
  let interim :=
    if sim.is_malicious && decide (sim.confidence ≥ 85) then
      some (simWarnAnalysis payload.method sim)
    else none
  let scoreOut := scoreRequest payload entries mlCache now mlApi
  { interim := interim
    final := { scoreOut.analysis with simulation := some sim }
    responseBlocked := false
    mlCache := scoreOut.mlCache
    simCache := simOut.cache }

/-- Outcome of one PAGE_LOADED message (src/extension/background.js
lines 555-623): the analysis stored for the tab (when the sender tab
has an id), the SHOW_BANNER message data sent to the content script
(when the tab has an id and the simulation confidence is >= 80), the
simulation cache afterwards and whether an external call was made. -/
structure PageLoadOut where
  stored : Option Analysis
  bannerData : Option SimResult
  simCache : SimCache
  simCalled : Bool

/-- The analysis the PAGE_LOADED handler stores for the tab
(src/extension/background.js lines 568-598). -/
def pageLoadAnalysis (sim : SimResult) : Analysis :=
  { score := if sim.is_malicious then 85 else 10
    reasons :=
      if sim.is_malicious then
        ["Simulation detected " ++ toString sim.confidence ++ "% malicious confidence"]
          ++ (if sim.typosquatting_detected then
                ["Typosquatting: Site mimics " ++ sim.similar_to.getD ("null")]
              else [])
          ++ sim.risk_factors
      else ["No threats detected"]
    decoded := none
    components :=
      { heuristic := 0, darklist := 0, ml := if sim.is_malicious then 85 else 10 }
    simulation := some sim
    blocked := some false }

/-- From src/extension/background.js, the PAGE_LOADED branch of the
onMessage listener (lines 555-623): non-http(s) URLs are skipped
entirely; otherwise the simulation runs against the page URL (warming
the cache), its result is stored for the sender tab, and the raw
simulation result is sent to the content script as a SHOW_BANNER
message exactly when the tab has an id and the confidence is >= 80. -/
def pageLoadedHandler (url : Option JStr) (tabId : Option Nat)
    (simCache : SimCache) (now : Nat) (api : SimApiOutcome) : PageLoadOut :=
  match url with
  | none => { stored := none, bannerData := none, simCache := simCache, simCalled := false }
  | some u =>
    if u.isEmpty || !(headMatches ("http://".toList) u || headMatches ("https://".toList) u) then
      { stored := none, bannerData := none, simCache := simCache, simCalled := false }
    else
      let simOut := checkSimulation (some u) simCache now api
      let sim := simOut.result
      { stored := if tabId.isSome then some (pageLoadAnalysis sim) else none
        bannerData :=
          if tabId.isSome && decide (sim.confidence ≥ 80) then some sim else none
        simCache := simOut.cache
        simCalled := simOut.called }

/-- The on-page notification banner the content script renders: whether
it is the malicious or the safe variant, the data shown, and the
auto-dismiss delay (none means the banner persists until the user
dismisses it). -/
structure Banner where
  malicious : Bool
  confidence : ℚ
  typosquatting : Bool
  similarTo : Option String
  autoDismissMs : Option Nat
deriving DecidableEq

/-- From src/extension/content.js, showSecurityBanner (lines 46-203):
confidence below 80 shows nothing; otherwise a banner is rendered whose
malicious/safe variant follows is_malicious, and only the safe variant
is auto-dismissed (after 10000 ms); the malicious variant stays until
clicked. -/
def showSecurityBanner (data : SimResult) : Option Banner :=
  if data.confidence < 80 then none
  else
    some { malicious := data.is_malicious
           confidence := data.confidence
           typosquatting := data.typosquatting_detected
           similarTo := data.similar_to
           autoDismissMs := if data.is_malicious then none else some 10000 }

/-- End-to-end notification instruction of a PageLoad event: the
SHOW_BANNER message emitted by the background handler, rendered by the
content script. -/
def pageLoadNotification (url : Option JStr) (tabId : Option Nat)
    (simCache : SimCache) (now : Nat) (api : SimApiOutcome) : Option Banner :=
  Option.bind (pageLoadedHandler url tabId simCache now api).bannerData showSecurityBanner

/-- Test vector: approve(spender, 2^256-1) calldata — selector
0x095ea7b3, spender word, then an all-ff amount word. -/
def txApproveUnlimited : JStr :=
  ("0x095ea7b30000000000000000000000001234567890abcdef1234567890abcdef12345678ffffffffffffffffffffffffffffffffffffffffffffffffffffffffffffffff").toList

/-- Test vector: the amount word of txApproveUnlimited (64 f digits). -/
def wordFF : JStr :=
  ("ffffffffffffffffffffffffffffffffffffffffffffffffffffffffffffffff").toList

/-- Test vector: an eth_sendTransaction request carrying
txApproveUnlimited. -/
def reqUnlimited : WalletReq :=
  { method := "eth_sendTransaction", txData := some txApproveUnlimited }

/-- Test vector: the spender extracted from txApproveUnlimited. -/
def spenderUnlimited : JStr :=
  ("0x1234567890abcdef1234567890abcdef12345678").toList

/-- Test vector: approve(spender, 0) calldata whose spender is the
lowercase form of the blacklisted test address. -/
def txDarklisted : JStr :=
  ("0x095ea7b3000000000000000000000000abcdef00123456789012345678901234567890120000000000000000000000000000000000000000000000000000000000000000").toList

/-- Test vector: an eth_sendTransaction request carrying
txDarklisted. -/
def reqDarklisted : WalletReq :=
  { method := "eth_sendTransaction", txData := some txDarklisted }

/-- Test vector: the spender extracted from txDarklisted. -/
def spenderDarklisted : JStr :=
  ("0xabcdef0012345678901234567890123456789012").toList

/-- Test vector: a darklist entry whose address is an upper-case form
of spenderDarklisted. -/
def entryDarklisted : DarklistEntry :=
  { address := ("0xABCDEF0012345678901234567890123456789012").toList
    comment := some ("phishing campaign"), date := none }

/-- Test vector: setApprovalForAll calldata whose second argument word
has the non-canonical boolean value 2. -/
def txSetApprovalTwo : JStr :=
  ("0xa22cb465000000000000000000000000abcdef00123456789012345678901234567890120000000000000000000000000000000000000000000000000000000000000002").toList

/-- Test vector: a 64-digit first argument word holding an operator
address. -/
def wordOperator : JStr :=
  ("000000000000000000000000abcdef0012345678901234567890123456789012").toList

/-- Test vector: a 64-digit boolean argument word with value 1. -/
def wordOne : JStr :=
  ("0000000000000000000000000000000000000000000000000000000000000001").toList

/-- Test vector: a dApp page URL. -/
def urlDapp : JStr := ("https://app.example-dapp.io/swap").toList

/-- Test vector: simulation response - malicious, confidence 96,
typosquatting detected. -/
def simMal96 : SimApiData :=
  { is_malicious := some true, confidence := some 96
    typosquatting_detected := some true, similar_to := some ("example-dapp.io") }

/-- Test vector: simulation response - safe, confidence 82. -/
def simSafe82 : SimApiData :=
  { is_malicious := some false, confidence := some 82 }

/-- Test vector: simulation response - malicious, confidence 50. -/
def simConf50 : SimApiData :=
  { is_malicious := some true, confidence := some 50 }

/-- Test vector: simulation response - malicious, confidence 90, no
typosquatting. -/
def simMal90 : SimApiData :=
  { is_malicious := some true, confidence := some 90 }

/-- Test vector: a successful ML API response with score 10. -/
def mlScore10 : MLApiData := { score := some 10 }

/-- Test vector: a successful ML API response with score 85. -/
def mlScore85 : MLApiData := { score := some 85 }

/-- Test vector: an eth_signTypedData_v4 request whose typed-data
string contains permit keywords and carries a message.spender, so the
heuristic score is 85 and the ML source is consulted. -/
def reqTypedPermit : WalletReq :=
  { method := "eth_signTypedData_v4"
    typedStr := some ("permit spender value".toList)
    typedSpender := some spenderUnlimited }

/-- Test vector: a successful ML API response with score 55. -/
def mlScore55 : MLApiData := { score := some 55 }

set_option maxRecDepth 8000

/-- W35num x 2^-54 is within half an ulp of 0.35 (the ulp at 0.35 is
2^-54), certifying it as the binary64 value of the literal 0.35. -/
theorem WEIGHTS_heuristic_nearest : |WEIGHTS_heuristic - 35 / 100| < 1 / 2 ^ 55 := by
  rw [WEIGHTS_heuristic, W35num]
  rw [abs_sub_lt_iff]
  norm_num

/-- W30num x 2^-54 is within half an ulp of 0.3, certifying it as the
binary64 value of the literal 0.3. -/
theorem WEIGHTS_darklist_nearest : |WEIGHTS_darklist - 3 / 10| < 1 / 2 ^ 55 := by
  rw [WEIGHTS_darklist, W30num]
  rw [abs_sub_lt_iff]
  norm_num

/-- Math.round of the binary64 weighted sum, characterized as natural
arithmetic on the scaled numerator: add half the scale and floor. -/
theorem jsWeighted_round (h b m : ℕ) :
    jsMathRound (jsWeightedSum h b m)
      = (((jsWeightedNum h b m + 2 ^ 53) / 2 ^ 54 : ℕ) : ℤ) := by
  have h2 : (jsWeightedNum h b m : ℚ) / 2 ^ 54 + 1 / 2
      = ((jsWeightedNum h b m + 2 ^ 53 : ℕ) : ℚ) / 2 ^ 54 := by
    push_cast
    ring
  rw [jsMathRound, jsWeightedSum, round_eq, h2]
  exact_mod_cast Rat.floor_natCast_div_natCast (jsWeightedNum h b m + 2 ^ 53) (2 ^ 54)

/-- Executable characterization of the final score of scoreRequest in
terms of its own component scores. -/
theorem scoreRequest_score_char (req : WalletReq) (entries : List DarklistEntry)
    (mlCache : MLCache) (now : Nat) (mlApi : Except String MLApiData) :
    (scoreRequest req entries mlCache now mlApi).analysis.score =
      (if (scoreRequest req entries mlCache now mlApi).analysis.components.darklist > 0 then
        max 95
          (((jsWeightedNum (scoreRequest req entries mlCache now mlApi).analysis.components.heuristic
              (scoreRequest req entries mlCache now mlApi).analysis.components.darklist
              (scoreRequest req entries mlCache now mlApi).analysis.components.ml
            + 2 ^ 53) / 2 ^ 54 : ℕ) : ℤ)
      else
        (((jsWeightedNum (scoreRequest req entries mlCache now mlApi).analysis.components.heuristic
            (scoreRequest req entries mlCache now mlApi).analysis.components.darklist
            (scoreRequest req entries mlCache now mlApi).analysis.components.ml
          + 2 ^ 53) / 2 ^ 54 : ℕ) : ℤ)) := by
  unfold scoreRequest
  simp only [jsWeighted_round]

/-- Claim C1: for every wallet request from which a spender/operator
address is decoded, if that address appears in the loaded blacklist
under any letter-casing (lookup is a case-insensitive exact match via
lowercase canonicalization on both load and query), then the darklist
component is 100 and the final score equals
max(95, Math.round of the binary64 sum 0.35 h + 0.30 x 100 + 0.35 ml),
hence is at least 95 and maps to the CRITICAL level, regardless of the
heuristic and ML component scores. -/
theorem claim_C1_blacklist_override (req : WalletReq) (entries : List DarklistEntry)
    (mlCache : MLCache) (now : Nat) (mlApi : Except String MLApiData)
    (a : JStr) (ha : (getHeuristicScore req).spenderAddress = some a) (hne : a ≠ [])
    (e : DarklistEntry) (he : e ∈ entries) (hmatch : toLowerStr e.address = toLowerStr a) :
    (scoreRequest req entries mlCache now mlApi).analysis.components.darklist = 100
    ∧ (scoreRequest req entries mlCache now mlApi).analysis.score
        = max 95 (jsMathRound (jsWeightedSum
            (scoreRequest req entries mlCache now mlApi).analysis.components.heuristic
            100
            (scoreRequest req entries mlCache now mlApi).analysis.components.ml))
    ∧ 95 ≤ (scoreRequest req entries mlCache now mlApi).analysis.score
    ∧ (getRiskLevel (scoreRequest req entries mlCache now mlApi).analysis.score).text
        = "CRITICAL" := by
  have hT : optTruthy (getHeuristicScore req).spenderAddress = true := by
    rw [ha]
    simp [optTruthy, List.isEmpty_iff, hne]
  have hC : checkDarklist entries (getHeuristicScore req).spenderAddress = true := by
    rw [ha]
    simp only [checkDarklist]
    rw [if_neg (by simp [List.isEmpty_iff, hne])]
    simp only [decide_eq_true_eq, darklistSet]
    exact List.mem_map.2 ⟨e, he, hmatch⟩
  have h95 : ∀ w : ℤ, (95:ℤ) ≤ 95 ⊔ w := fun _ => le_sup_left
  have h80 : ∀ w : ℤ, ((80:ℤ) ≤ 95 ⊔ w) := fun w => le_trans (by norm_num) (h95 w)
  simp only [scoreRequest, hT, hC, Bool.true_and, Bool.and_self, ite_true]
  norm_num [getRiskLevel, h95, h80]

/-- Witness for claim C1 at a concrete blacklisted approval request:
the spender is decoded, matches a loaded entry up to casing, and the
verdict is at least 95 and CRITICAL. -/
theorem claim_C1_blacklist_override_witness :
    (getHeuristicScore reqDarklisted).spenderAddress = some spenderDarklisted
    ∧ spenderDarklisted ≠ []
    ∧ entryDarklisted ∈ [entryDarklisted]
    ∧ toLowerStr entryDarklisted.address = toLowerStr spenderDarklisted
    ∧ (95 ≤ (scoreRequest reqDarklisted [entryDarklisted] emptyCache 0
          (Except.error ("ml down"))).analysis.score
        ∧ (getRiskLevel (scoreRequest reqDarklisted [entryDarklisted] emptyCache 0
            (Except.error ("ml down"))).analysis.score).text = "CRITICAL") :=
  ⟨by decide, by decide, List.mem_singleton.2 rfl, by decide,
    (claim_C1_blacklist_override reqDarklisted [entryDarklisted] emptyCache 0
      (Except.error ("ml down")) spenderDarklisted (by decide) (by decide)
      entryDarklisted (List.mem_singleton.2 rfl) (by decide)).2.2⟩

/-- Claim C2: for every token-approval transaction (selector
0x095ea7b3), the decoder flags isUnlimited exactly when the 256-bit
amount word exceeds 0.95 x (2^256 - 1) — the code's integer test
amount > (max x 95) / 100 with floor division is equivalent to the
exact rational threshold for integer amounts — and in that case the
heuristic component of the verdict is at least 90 (it is 95). -/
theorem claim_C2_unlimited_approval (ds : JStr) (hne : ds ≠ []) (hhex : ds.all hexDigit = true)
    (req : WalletReq) (entries : List DarklistEntry) (mlCache : MLCache) (now : Nat)
    (mlApi : Except String MLApiData) (sp : JStr)
    (hm : req.method = "eth_sendTransaction" ∨ req.method = "eth_sendRawTransaction")
    (hd : decodeTxData req.txData = .approve sp ('0' :: 'x' :: ds)) :
    (isUnlimitedApproval (some ('0' :: 'x' :: ds)) = true
      ↔ ((95 : ℚ) / 100 * (2 ^ 256 - 1) < (hexVal ds : ℚ)))
    ∧ (isUnlimitedApproval (some ('0' :: 'x' :: ds)) = true →
        90 ≤ (scoreRequest req entries mlCache now mlApi).analysis.components.heuristic) := by
  constructor
  · have hred : isUnlimitedApproval (some ('0' :: 'x' :: ds))
        = decide (hexVal ds > ((2 ^ 256 - 1) * 95) / 100) := by
      simp only [isUnlimitedApproval, hexToBigInt, List.isEmpty_cons, List.drop_succ_cons,
        List.drop_zero]
      rw [if_neg (by simp),
        if_pos (show List.take 2 ('0' :: 'x' :: ds) = ['0', 'x'] from rfl),
        if_neg (by simp [List.isEmpty_iff, hne]), if_pos hhex]
    rw [hred, decide_eq_true_iff]
    rw [gt_iff_lt, Nat.div_lt_iff_lt_mul (by norm_num : (0:ℕ) < 100)]
    have hcast : ((2 ^ 256 - 1 : ℕ) : ℚ) = 2 ^ 256 - 1 := by
      rw [Nat.cast_sub (Nat.one_le_two_pow)]
      push_cast
      ring
    constructor
    · intro h
      have h2 : ((2 ^ 256 - 1 : ℕ) * 95 : ℚ) < (hexVal ds : ℚ) * 100 := by exact_mod_cast h
      rw [hcast] at h2
      nlinarith [h2]
    · intro h
      have h2 : ((2 ^ 256 - 1 : ℕ) * 95 : ℚ) < (hexVal ds : ℚ) * 100 := by
        rw [hcast]
        nlinarith [h]
      exact_mod_cast h2
  · intro hu
    have hcomp : (scoreRequest req entries mlCache now mlApi).analysis.components.heuristic
        = (getHeuristicScore req).score := by
      simp only [scoreRequest]
    rw [hcomp]
    have hh : (getHeuristicScore req).score = 95 := by
      rcases hm with hm | hm <;>
      · simp only [getHeuristicScore, hm]
        rw [hd]
        simp [hu]
    rw [hh]
    norm_num

/-- Witness for claim C2 at a concrete approve transaction whose
amount word is all f digits (2^256 - 1): the amount is flagged
unlimited and the heuristic component is at least 90. -/
theorem claim_C2_unlimited_approval_witness :
    wordFF ≠ [] ∧ wordFF.all hexDigit = true
    ∧ decodeTxData reqUnlimited.txData = .approve spenderUnlimited ('0' :: 'x' :: wordFF)
    ∧ isUnlimitedApproval (some ('0' :: 'x' :: wordFF)) = true
    ∧ 90 ≤ (scoreRequest reqUnlimited [] emptyCache 0
        (Except.ok mlScore10)).analysis.components.heuristic :=
  ⟨by decide, by decide, by decide, by decide,
    (claim_C2_unlimited_approval wordFF (by decide) (by decide) reqUnlimited [] emptyCache 0
      (Except.ok mlScore10) spenderUnlimited (Or.inl rfl) (by decide)).2 (by decide)⟩

/-- Counterexample to claim C3 as stated: the program evaluates the
weighted sum in binary64, not in exact rational arithmetic.  At the
reachable non-blacklisted evaluation with heuristic 85 (a typed-data
permit request) and ML score 85, the program computes
Math.round(0.35*85 + 0.3*0 + 0.35*85) = Math.round(59.49999999999999)
= 59, level MEDIUM, whereas the claim's exact formula gives
round(59.5) = 60, level HIGH. -/
theorem claim_C3_counterexample :
    (scoreRequest reqTypedPermit [] emptyCache 0 (Except.ok mlScore85)).analysis.components
        = { heuristic := 85, darklist := 0, ml := 85 }
    ∧ (scoreRequest reqTypedPermit [] emptyCache 0 (Except.ok mlScore85)).analysis.score = 59
    ∧ jsMathRound ((35 : ℚ) / 100 * 85 + (30 : ℚ) / 100 * 0 + (35 : ℚ) / 100 * 85) = 60
    ∧ (getRiskLevel (scoreRequest reqTypedPermit [] emptyCache 0
        (Except.ok mlScore85)).analysis.score).text = "MEDIUM"
    ∧ (getRiskLevel 60).text = "HIGH RISK"
    ∧ (59 : ℤ) ≠ 60 := by
  refine ⟨by decide, ?_, ?_, ?_, by decide, by decide⟩
  · rw [scoreRequest_score_char]
    decide
  · norm_num [jsMathRound, round_eq]
  · rw [scoreRequest_score_char]
    decide

/-- Claim C3, amended: for every evaluation whose decoded spender is
not blacklisted, the darklist component is 0 and finalScore is
Math.round of the binary64-evaluated sum 0.35 h + 0.30 x 0 + 0.35 ml
(which can fall one below the exact-rational round at rounding
boundaries, e.g. heuristic 85 with ML 85 gives 59 MEDIUM, not
round(59.5) = 60 HIGH); the concrete examples hold as claimed: the
unlimited-approval request with heuristic 95 and ML 10 scores 37
(MEDIUM), eth_requestAccounts with no spender (heuristic 10, ML
defaulting to the heuristic fallback 10) scores 7 (LOW), and the level
mapping is < 30 LOW, [30, 60) MEDIUM, [60, 80) HIGH, >= 80
CRITICAL. -/
theorem claim_C3_weighted_sum :
    (∀ (req : WalletReq) (entries : List DarklistEntry) (mlCache : MLCache) (now : Nat)
      (mlApi : Except String MLApiData),
      (∀ a, (getHeuristicScore req).spenderAddress = some a → toLowerStr a ∉ darklistSet entries) →
        (scoreRequest req entries mlCache now mlApi).analysis.components.darklist = 0
        ∧ (scoreRequest req entries mlCache now mlApi).analysis.score
            = jsMathRound (jsWeightedSum
                (scoreRequest req entries mlCache now mlApi).analysis.components.heuristic
                0
                (scoreRequest req entries mlCache now mlApi).analysis.components.ml))
    ∧ ((scoreRequest reqUnlimited [] emptyCache 0 (Except.ok mlScore10)).analysis.components
          = { heuristic := 95, darklist := 0, ml := 10 }
        ∧ (scoreRequest reqUnlimited [] emptyCache 0 (Except.ok mlScore10)).analysis.score = 37
        ∧ (getRiskLevel (scoreRequest reqUnlimited [] emptyCache 0
            (Except.ok mlScore10)).analysis.score).text = "MEDIUM")
    ∧ ((scoreRequest { method := "eth_requestAccounts" } [] emptyCache 0
          (Except.error ("ml down"))).analysis.components
          = { heuristic := 10, darklist := 0, ml := 10 }
        ∧ (scoreRequest { method := "eth_requestAccounts" } [] emptyCache 0
            (Except.error ("ml down"))).analysis.score = 7
        ∧ (getRiskLevel (scoreRequest { method := "eth_requestAccounts" } [] emptyCache 0
            (Except.error ("ml down"))).analysis.score).text = "LOW RISK")
    ∧ (∀ s : ℤ, ((getRiskLevel s).text = "LOW RISK" ↔ s < 30)
        ∧ ((getRiskLevel s).text = "MEDIUM" ↔ 30 ≤ s ∧ s < 60)
        ∧ ((getRiskLevel s).text = "HIGH RISK" ↔ 60 ≤ s ∧ s < 80)
        ∧ ((getRiskLevel s).text = "CRITICAL" ↔ 80 ≤ s)) := by
  refine ⟨?_, ⟨?_, ?_, ?_⟩, ⟨?_, ?_, ?_⟩, ?_⟩
  · intro req entries mlCache now mlApi hnb
    have hBl : (optTruthy (getHeuristicScore req).spenderAddress
        && checkDarklist entries (getHeuristicScore req).spenderAddress) = false := by
      cases h : (getHeuristicScore req).spenderAddress with
      | none => simp [optTruthy]
      | some a =>
        have : checkDarklist entries (some a) = false := by
          simp only [checkDarklist]
          by_cases ha : a.isEmpty
          · rw [if_pos ha]
          · rw [if_neg ha]
            simp [hnb a h]
        simp [this]
    simp only [scoreRequest, hBl, Bool.false_eq_true, if_false]
    norm_num
  · rfl
  · rw [scoreRequest_score_char]
    decide
  · rw [scoreRequest_score_char]
    decide
  · rfl
  · rw [scoreRequest_score_char]
    decide
  · rw [scoreRequest_score_char]
    decide
  · intro s
    unfold getRiskLevel
    split_ifs <;> simp_all <;> omega

/-- Witness for claim C3 at the concrete unlimited-approval request
against an empty blacklist. -/
theorem claim_C3_weighted_sum_witness :
    (∀ a, (getHeuristicScore reqUnlimited).spenderAddress = some a
        → toLowerStr a ∉ darklistSet [])
    ∧ ((scoreRequest reqUnlimited [] emptyCache 0 (Except.ok mlScore10)).analysis.components.darklist = 0
        ∧ (scoreRequest reqUnlimited [] emptyCache 0 (Except.ok mlScore10)).analysis.score
            = jsMathRound (jsWeightedSum
                (scoreRequest reqUnlimited [] emptyCache 0 (Except.ok mlScore10)).analysis.components.heuristic
                0
                (scoreRequest reqUnlimited [] emptyCache 0 (Except.ok mlScore10)).analysis.components.ml)) :=
  ⟨fun a _ => by simp [darklistSet],
    claim_C3_weighted_sum.1 reqUnlimited [] emptyCache 0 (Except.ok mlScore10)
      (fun a _ => by simp [darklistSet])⟩

/-- Claim C10: for every request from which no spender/operator address
is decoded (personal_sign, eth_sign, eth_requestAccounts, transactions
with unrecognized selectors, and typed-data requests without a
message.spender), scoreRequest consults neither the blacklist nor the
ML signal source — no ML cache access or external ML call occurs and
the ML cache is unchanged — and the darklist component is 0 while the
ML component equals the heuristic score. -/
theorem claim_C10_no_spender_no_external (req : WalletReq) (entries : List DarklistEntry)
    (mlCache : MLCache) (now : Nat) (mlApi : Except String MLApiData)
    (h : (req.method = "personal_sign" ∨ req.method = "eth_sign"
            ∨ req.method = "eth_requestAccounts")
       ∨ ((req.method = "eth_sendTransaction" ∨ req.method = "eth_sendRawTransaction")
            ∧ (decodeTxData req.txData).fn = "unknown")
       ∨ (req.method = "eth_signTypedData_v4" ∧ req.typedSpender = none)) :
    (scoreRequest req entries mlCache now mlApi).mlQueried = false
    ∧ (scoreRequest req entries mlCache now mlApi).mlCalled = false
    ∧ (scoreRequest req entries mlCache now mlApi).darklistQueried = false
    ∧ (scoreRequest req entries mlCache now mlApi).mlCache = mlCache
    ∧ (scoreRequest req entries mlCache now mlApi).analysis.components.darklist = 0
    ∧ (scoreRequest req entries mlCache now mlApi).analysis.components.ml
        = (scoreRequest req entries mlCache now mlApi).analysis.components.heuristic := by
  have hsp : (getHeuristicScore req).spenderAddress = none := by
    rcases h with (hm | hm | hm) | ⟨(hm | hm), hfn⟩ | ⟨hm, hs⟩
    · simp [getHeuristicScore, hm, apply_ite]
    · simp [getHeuristicScore, hm, apply_ite]
    · simp [getHeuristicScore, hm]
    · cases hdt : decodeTxData req.txData
      case approve sp ah => rw [hdt] at hfn; simp [Decoded.fn] at hfn
      case setApprovalForAll op en => rw [hdt] at hfn; simp [Decoded.fn] at hfn
      all_goals simp [getHeuristicScore, hm, hdt]
    · cases hdt : decodeTxData req.txData
      case approve sp ah => rw [hdt] at hfn; simp [Decoded.fn] at hfn
      case setApprovalForAll op en => rw [hdt] at hfn; simp [Decoded.fn] at hfn
      all_goals simp [getHeuristicScore, hm, hdt]
    · simp [getHeuristicScore, hm]
      cases req.typedStr with
      | none => simp
      | some ts => simp [hs, apply_ite]
  simp [scoreRequest, hsp, optTruthy]

/-- Witness for claim C10 at a concrete personal_sign request. -/
theorem claim_C10_no_spender_no_external_witness :
    (({ method := "personal_sign" } : WalletReq).method = "personal_sign"
        ∨ ({ method := "personal_sign" } : WalletReq).method = "eth_sign"
        ∨ ({ method := "personal_sign" } : WalletReq).method = "eth_requestAccounts")
    ∧ ((scoreRequest { method := "personal_sign" } [entryDarklisted] emptyCache 0
          (Except.ok mlScore10)).mlQueried = false
      ∧ (scoreRequest { method := "personal_sign" } [entryDarklisted] emptyCache 0
          (Except.ok mlScore10)).mlCalled = false
      ∧ (scoreRequest { method := "personal_sign" } [entryDarklisted] emptyCache 0
          (Except.ok mlScore10)).darklistQueried = false
      ∧ (scoreRequest { method := "personal_sign" } [entryDarklisted] emptyCache 0
          (Except.ok mlScore10)).mlCache = emptyCache
      ∧ (scoreRequest { method := "personal_sign" } [entryDarklisted] emptyCache 0
          (Except.ok mlScore10)).analysis.components.darklist = 0
      ∧ (scoreRequest { method := "personal_sign" } [entryDarklisted] emptyCache 0
          (Except.ok mlScore10)).analysis.components.ml
          = (scoreRequest { method := "personal_sign" } [entryDarklisted] emptyCache 0
              (Except.ok mlScore10)).analysis.components.heuristic) :=
  ⟨Or.inl rfl,
    claim_C10_no_spender_no_external { method := "personal_sign" } [entryDarklisted]
      emptyCache 0 (Except.ok mlScore10) (Or.inl (Or.inl rfl))⟩

/-- Counterexample to claim C8 as stated: the 10-character payload
consisting of the approve selector alone has absent argument words, yet
the decoder returns the approve intent with the degenerate "0x" word
strings, not the Unknown intent. -/
theorem claim_C8_counterexample :
    decodeTxData (some ("0x095ea7b3".toList)) = Decoded.approve ("0x".toList) ("0x".toList)
    ∧ (decodeTxData (some ("0x095ea7b3".toList))).fn ≠ "unknown" := by decide

/-- Claim C8, amended: decodeTxData is total (it is a function into
Decoded, always yielding one of the unknown / approve /
setApprovalForAll shapes, never an error); a non-string, empty,
non-0x-prefixed or shorter-than-10-character payload yields Unknown, as
does any well-formed payload with an unrecognized selector; but a
payload with a recognized selector yields the corresponding intent even
when its argument words are absent or malformed (the word slices
degrade to short strings and hexToBigInt turns them into null
downstream). -/
theorem claim_C8_amended (data : Option JStr) :
    ((decodeTxData data).fn = "unknown" ∨ (decodeTxData data).fn = "approve"
      ∨ (decodeTxData data).fn = "setApprovalForAll")
    ∧ (data = none → decodeTxData data = .unknownEmpty)
    ∧ (∀ s, data = some s →
        (s = [] ∨ headMatches ['0', 'x'] s = false ∨ s.length < 10) →
        decodeTxData data = .unknownEmpty)
    ∧ (∀ s, data = some s → s ≠ [] → headMatches ['0', 'x'] s = true → 10 ≤ s.length →
        toLowerStr (jsSlice s 0 10) ≠ ('0' :: 'x' :: ['0', '9', '5', 'e', 'a', '7', 'b', '3']) →
        toLowerStr (jsSlice s 0 10) ≠ ('0' :: 'x' :: ['a', '2', '2', 'c', 'b', '4', '6', '5']) →
        decodeTxData data = .unknownSel (toLowerStr (jsSlice s 0 10)))
    ∧ (∀ s, data = some s → s ≠ [] → headMatches ['0', 'x'] s = true → 10 ≤ s.length →
        toLowerStr (jsSlice s 0 10) = ('0' :: 'x' :: ['0', '9', '5', 'e', 'a', '7', 'b', '3']) →
        decodeTxData data
          = .approve ('0' :: 'x' :: jsSlice s 34 74) ('0' :: 'x' :: jsSlice s 74 138)) := by
  refine ⟨?_, ?_, ?_, ?_, ?_⟩
  · cases data with
    | none => exact Or.inl rfl
    | some s =>
      simp only [decodeTxData]
      split_ifs <;> simp [Decoded.fn]
  · intro h
    subst h
    rfl
  · intro s hdat hcond
    subst hdat
    have hc : (s.isEmpty || !headMatches ['0', 'x'] s || decide (s.length < 10)) = true := by
      rcases hcond with h | h | h <;> simp [h]
    simp only [decodeTxData]
    simp [hc]
  · intro s hdat hne hhm hlen hsel1 hsel2
    subst hdat
    have hc : (s.isEmpty || !headMatches ['0', 'x'] s || decide (s.length < 10)) = false := by
      simp [List.isEmpty_iff, hne, hhm, Nat.not_lt.2 hlen]
    simp only [decodeTxData]
    rw [if_neg (by simp [hc])]
    rw [if_neg hsel1, if_neg hsel2]
  · intro s hdat hne hhm hlen hsel
    subst hdat
    have hc : (s.isEmpty || !headMatches ['0', 'x'] s || decide (s.length < 10)) = false := by
      simp [List.isEmpty_iff, hne, hhm, Nat.not_lt.2 hlen]
    simp only [decodeTxData]
    rw [if_neg (by simp [hc])]
    rw [if_pos hsel]

/-- Witness for claim C8 at the concrete short payload "0xab". -/
theorem claim_C8_amended_witness :
    (("0xab".toList : JStr) = [] ∨ headMatches ['0', 'x'] ("0xab".toList) = false
      ∨ ("0xab".toList : JStr).length < 10)
    ∧ decodeTxData (some ("0xab".toList)) = .unknownEmpty :=
  ⟨by decide, (claim_C8_amended (some ("0xab".toList))).2.2.1 ("0xab".toList) rfl (by decide)⟩

/-- Counterexample to claim C9 as stated: a setApprovalForAll payload
whose second argument word holds the non-zero value 2 decodes with the
boolean flag false — the code tests the word for equality with 1, not
for being non-zero. -/
theorem claim_C9_counterexample :
    decodeTxData (some txSetApprovalTwo)
      = .setApprovalForAll spenderDarklisted false
    ∧ hexToBigInt (some ('0' :: 'x' :: jsSlice txSetApprovalTwo 74 138)) = some 2 := by
  decide

/-- Claim C9, amended: for every blanket-approval call (selector
0xa22cb465) with two full argument words, the decoder extracts the
160-bit operator address right-aligned in the first argument word
(prefixed with 0x) and sets the boolean flag to true exactly when the
second argument word is a valid hex word of value 1 (not merely
non-zero). -/
theorem claim_C9_amended (w1 w2 : JStr) (h1 : w1.length = 64) (h2 : w2.length = 64) :
    decodeTxData (some ("0xa22cb465".toList ++ w1 ++ w2))
      = .setApprovalForAll ('0' :: 'x' :: w1.drop 24)
          (decide (hexToBigInt (some ('0' :: 'x' :: w2)) = some 1))
    ∧ ((hexToBigInt (some ('0' :: 'x' :: w2)) = some 1)
        ↔ (w2.all hexDigit = true ∧ hexVal w2 = 1)) := by
  have hsl : ("0xa22cb465".toList : JStr).length = 10 := rfl
  have e0 : ("0xa22cb465".toList ++ w1 ++ w2) = "0xa22cb465".toList ++ (w1 ++ w2) :=
    List.append_assoc _ _ _
  constructor
  · have hlen : ("0xa22cb465".toList ++ w1 ++ w2).length = 138 := by
      simp [List.length_append, hsl, h1, h2]
    have hguard : (("0xa22cb465".toList ++ w1 ++ w2).isEmpty
        || !headMatches ['0', 'x'] ("0xa22cb465".toList ++ w1 ++ w2)
        || decide (("0xa22cb465".toList ++ w1 ++ w2).length < 10)) = false := by
      simp [hlen]
      rfl
    have hselslice : toLowerStr (jsSlice ("0xa22cb465".toList ++ w1 ++ w2) 0 10)
        = ('0' :: 'x' :: ['a', '2', '2', 'c', 'b', '4', '6', '5']) := by
      rw [jsSlice, List.drop_zero, e0]
      rw [show (10 - 0 : ℕ) = 10 from rfl, List.take_left' hsl]
      decide
    have hop : jsSlice ("0xa22cb465".toList ++ w1 ++ w2) 34 74 = w1.drop 24 := by
      rw [jsSlice, show (74 - 34 : ℕ) = 40 from rfl, e0]
      rw [show (34 : ℕ) = ("0xa22cb465".toList : JStr).length + 24 from rfl,
        List.drop_append 24]
      rw [List.drop_append_of_le_length (by omega)]
      exact List.take_left' (by simp [List.length_drop, h1])
    have hbw : jsSlice ("0xa22cb465".toList ++ w1 ++ w2) 74 138 = w2 := by
      rw [jsSlice]
      rw [List.drop_left' (by simp [List.length_append, hsl, h1])]
      exact List.take_of_length_le (by omega)
    simp only [decodeTxData]
    rw [if_neg (by simp [hlen]; rfl)]
    rw [hselslice]
    rw [if_neg (by decide), if_pos rfl]
    rw [hop, hbw]
  · simp only [hexToBigInt]
    rw [if_neg (by simp), if_pos (show List.take 2 ('0' :: 'x' :: w2) = ['0', 'x'] from rfl)]
    have hds : ('0' :: 'x' :: w2).drop 2 = w2 := rfl
    rw [hds]
    rw [if_neg (by simp [List.isEmpty_iff]; intro hw; rw [hw] at h2; simp at h2)]
    cases hall : w2.all hexDigit
    · simp
    · simp

/-- Witness for claim C9 at a concrete blanket approval whose boolean
word is 1. -/
theorem claim_C9_amended_witness :
    wordOperator.length = 64 ∧ wordOne.length = 64
    ∧ decodeTxData (some ("0xa22cb465".toList ++ wordOperator ++ wordOne))
        = .setApprovalForAll ('0' :: 'x' :: wordOperator.drop 24)
            (decide (hexToBigInt (some ('0' :: 'x' :: wordOne)) = some 1)) :=
  ⟨by decide, by decide, (claim_C9_amended wordOperator wordOne (by decide) (by decide)).1⟩

/-- Counterexample to claim C4 as stated: the failed ML SignalResult
carries no confidence value at all ({ score: 0, error, fallback: true }
— claim C4 requires "a neutral low confidence" to be set), and the
simulation client's timeout result carries confidence 70, which is
neither neutral nor low; there is also no degraded flag anywhere in the
returned verdict. -/
theorem claim_C4_counterexample :
    (getMLScore (some spenderDarklisted) emptyCache 0
        (Except.error ("Failed to fetch"))).result.error = some ("Failed to fetch")
    ∧ (getMLScore (some spenderDarklisted) emptyCache 0
        (Except.error ("Failed to fetch"))).result.confidence = none
    ∧ (checkSimulation (some urlDapp) emptyCache 0
        (SimApiOutcome.err ("The user aborted a request."))).result.confidence = 70 := by
  decide

/-- Claim C4, amended: on a fetch error (timeout, transport or parse
failure, for a subject that is not freshly cached) the ML client
returns a score-0 SignalResult with error and fallback set and no
confidence value, and the simulation client returns a non-malicious
result with error and fallback set; neither failed result is stored in
its cache (the next evaluation retries); and the overall evaluation
still yields a verdict — scoreRequest is a total function — in which
the failed ML signal defaults to the heuristic score and the fallback
notice is appended to the reasons (the code has no degraded flag; the
fallback marker and the reason signal the degradation). -/
theorem claim_C4_amended :
    (∀ (a : JStr) (cache : MLCache) (now : Nat) (msg : String),
      a ≠ [] → cache (toLowerStr a) = none →
        (getMLScore (some a) cache now (.error msg)).result.error = some msg
        ∧ (getMLScore (some a) cache now (.error msg)).result.fallback = true
        ∧ (getMLScore (some a) cache now (.error msg)).result.score = 0
        ∧ (getMLScore (some a) cache now (.error msg)).cache = cache
        ∧ (getMLScore (some a) cache now (.error msg)).called = true)
    ∧ (∀ (u o : JStr) (cache : SimCache) (now : Nat) (msg : String),
        u ≠ [] → urlOrigin u = some o → cache o = none →
        (checkSimulation (some u) cache now (.err msg)).result.error.isSome = true
        ∧ (checkSimulation (some u) cache now (.err msg)).result.fallback = true
        ∧ (checkSimulation (some u) cache now (.err msg)).result.is_malicious = false
        ∧ (checkSimulation (some u) cache now (.err msg)).cache = cache
        ∧ (checkSimulation (some u) cache now (.err msg)).called = true)
    ∧ (∀ (req : WalletReq) (entries : List DarklistEntry) (mlCache : MLCache) (now : Nat)
        (msg : String) (a : JStr),
        (getHeuristicScore req).spenderAddress = some a → a ≠ [] →
        mlCache (toLowerStr a) = none →
        (scoreRequest req entries mlCache now (.error msg)).analysis.components.ml
            = (scoreRequest req entries mlCache now (.error msg)).analysis.components.heuristic
        ∧ ("ML API unavailable - using heuristic fallback")
            ∈ (scoreRequest req entries mlCache now (.error msg)).analysis.reasons
        ∧ (scoreRequest req entries mlCache now (.error msg)).mlCache = mlCache) := by
  refine ⟨?_, ?_, ?_⟩
  · intro a cache now msg hne hmiss
    simp [getMLScore, mlFetch, List.isEmpty_iff, hne, hmiss]
  · intro u o cache now msg hne horig hmiss
    simp [checkSimulation, simFetch, simCatch, List.isEmpty_iff, hne, horig, hmiss]
    split_ifs <;> simp
  · intro req entries mlCache now msg a ha hne hmiss
    have hT : optTruthy (getHeuristicScore req).spenderAddress = true := by
      rw [ha]
      simp [optTruthy, List.isEmpty_iff, hne]
    have hml : getMLScore (getHeuristicScore req).spenderAddress mlCache now (.error msg)
        = { result := { score := 0, error := some msg, fallback := true }
            cache := mlCache, called := true } := by
      rw [ha]
      simp [getMLScore, mlFetch, List.isEmpty_iff, hne, hmiss]
    simp only [scoreRequest, hT, hml, ite_true]
    norm_num [List.mem_append]

/-- Witness for claim C4 at a concrete approval request with the ML
API failing. -/
theorem claim_C4_amended_witness :
    (getHeuristicScore reqUnlimited).spenderAddress = some spenderUnlimited
    ∧ spenderUnlimited ≠ []
    ∧ (emptyCache : MLCache) (toLowerStr spenderUnlimited) = none
    ∧ ((scoreRequest reqUnlimited [] emptyCache 0
          (.error ("Failed to fetch"))).analysis.components.ml
        = (scoreRequest reqUnlimited [] emptyCache 0
            (.error ("Failed to fetch"))).analysis.components.heuristic
      ∧ ("ML API unavailable - using heuristic fallback")
          ∈ (scoreRequest reqUnlimited [] emptyCache 0
              (.error ("Failed to fetch"))).analysis.reasons
      ∧ (scoreRequest reqUnlimited [] emptyCache 0
          (.error ("Failed to fetch"))).mlCache = emptyCache) :=
  ⟨by decide, by decide, rfl,
    claim_C4_amended.2.2 reqUnlimited [] emptyCache 0 ("Failed to fetch") spenderUnlimited
      (by decide) (by decide) rfl⟩

/-- Counterexample to claim C5 as stated: the freshness test is
strict (now - timestamp < TTL), so at now = expiresAt (fetch time +
5 minutes, here 0 + ML_CACHE_TTL), which the claim includes in the hit
window (now <= expiresAt), the client issues a new external call and
the returned result is not bit-identical to the first (its timestamp
differs). -/
theorem claim_C5_counterexample :
    (getMLScore (some spenderDarklisted)
        (getMLScore (some spenderDarklisted) emptyCache 0 (Except.ok mlScore55)).cache
        ML_CACHE_TTL (Except.ok mlScore55)).called = true
    ∧ (getMLScore (some spenderDarklisted)
        (getMLScore (some spenderDarklisted) emptyCache 0 (Except.ok mlScore55)).cache
        ML_CACHE_TTL (Except.ok mlScore55)).result
      ≠ (getMLScore (some spenderDarklisted) emptyCache 0 (Except.ok mlScore55)).result
    ∧ ML_CACHE_TTL ≤ 0 + ML_CACHE_TTL := by
  decide

/-- Claim C5, amended: a fetch first consults the TTL cache keyed by
the canonicalized subject (lowercased address for ML, URL origin for
Simulation); a hit with now strictly before expiresAt
(now - fetchTime < TTL) is returned as-is with no external call, so
two fetches of the same canonicalized subject whose second call falls
strictly within the 5-minute TTL of a successful first call return
bit-identical SignalResult values with exactly one external call,
while a second call at or after expiry issues a new external call. -/
theorem claim_C5_amended :
    (∀ (a : JStr) (cache : MLCache) (now : Nat) (api : Except String MLApiData)
      (c : MLResult) (t : Nat),
      a ≠ [] → cache (toLowerStr a) = some c → c.timestamp = some t →
      now - t < ML_CACHE_TTL →
      getMLScore (some a) cache now api = { result := c, cache := cache, called := false })
    ∧ (∀ (a : JStr) (cache : MLCache) (t0 t1 : Nat) (d : MLApiData)
        (api2 : Except String MLApiData),
        a ≠ [] → cache (toLowerStr a) = none → t1 - t0 < ML_CACHE_TTL →
        (getMLScore (some a) (getMLScore (some a) cache t0 (.ok d)).cache t1 api2).result
            = (getMLScore (some a) cache t0 (.ok d)).result
        ∧ (getMLScore (some a) cache t0 (.ok d)).called = true
        ∧ (getMLScore (some a) (getMLScore (some a) cache t0 (.ok d)).cache t1 api2).called
            = false)
    ∧ (∀ (a : JStr) (cache : MLCache) (t0 t1 : Nat) (d : MLApiData)
        (api2 : Except String MLApiData),
        a ≠ [] → cache (toLowerStr a) = none → ML_CACHE_TTL ≤ t1 - t0 →
        (getMLScore (some a) (getMLScore (some a) cache t0 (.ok d)).cache t1 api2).called
            = true)
    ∧ (∀ (u o : JStr) (cache : SimCache) (now : Nat) (api : SimApiOutcome)
        (c : SimResult) (t : Nat),
        u ≠ [] → urlOrigin u = some o → cache o = some c → c.timestamp = some t →
        now - t < SIM_CACHE_TTL →
        checkSimulation (some u) cache now api = { result := c, cache := cache, called := false })
    ∧ (∀ (u o : JStr) (cache : SimCache) (t0 t1 : Nat) (d : SimApiData) (api2 : SimApiOutcome),
        u ≠ [] → urlOrigin u = some o → cache o = none → t1 - t0 < SIM_CACHE_TTL →
        (checkSimulation (some u) (checkSimulation (some u) cache t0 (.ok d)).cache t1 api2).result
            = (checkSimulation (some u) cache t0 (.ok d)).result
        ∧ (checkSimulation (some u) cache t0 (.ok d)).called = true
        ∧ (checkSimulation (some u) (checkSimulation (some u) cache t0 (.ok d)).cache t1 api2).called
            = false) := by
  refine ⟨?_, ?_, ?_, ?_, ?_⟩
  · intro a cache now api c t hne hc ht hfresh
    simp [getMLScore, List.isEmpty_iff, hne, hc, mlCacheFresh, ht, hfresh]
  · intro a cache t0 t1 d api2 hne hmiss hfresh
    simp [getMLScore, List.isEmpty_iff, hne, hmiss, mlFetch, jsMapSet, normalizeML,
      mlCacheFresh, hfresh]
  · intro a cache t0 t1 d api2 hne hmiss hstale
    cases api2 <;>
      simp [getMLScore, List.isEmpty_iff, hne, hmiss, mlFetch, jsMapSet, normalizeML,
        mlCacheFresh, Nat.not_lt.2 hstale]
  · intro u o cache now api c t hne horig hc ht hfresh
    simp [checkSimulation, List.isEmpty_iff, hne, horig, hc, simCacheFresh, ht, hfresh]
  · intro u o cache t0 t1 d api2 hne horig hmiss hfresh
    simp [checkSimulation, List.isEmpty_iff, hne, horig, hmiss, simFetch, jsMapSet,
      normalizeSim, simCacheFresh, hfresh]

/-- Witness for claim C5: two concrete ML fetches of the same address
299999 ms apart return the identical cached result with one external
call. -/
theorem claim_C5_amended_witness :
    spenderDarklisted ≠ []
    ∧ (emptyCache : MLCache) (toLowerStr spenderDarklisted) = none
    ∧ (299999 : ℕ) - 0 < ML_CACHE_TTL
    ∧ ((getMLScore (some spenderDarklisted)
          (getMLScore (some spenderDarklisted) emptyCache 0 (.ok mlScore55)).cache
          299999 (.ok mlScore55)).result
        = (getMLScore (some spenderDarklisted) emptyCache 0 (.ok mlScore55)).result
      ∧ (getMLScore (some spenderDarklisted) emptyCache 0 (.ok mlScore55)).called = true
      ∧ (getMLScore (some spenderDarklisted)
          (getMLScore (some spenderDarklisted) emptyCache 0 (.ok mlScore55)).cache
          299999 (.ok mlScore55)).called = false) :=
  ⟨by decide, rfl, by decide,
    claim_C5_amended.2.1 spenderDarklisted emptyCache 0 299999 mlScore55 (.ok mlScore55)
      (by decide) rfl (by decide)⟩

/-- Claim C6: on a PageLoad event (http/https URL, tab with an id), a
notification instruction is emitted iff the simulation result reports
malicious with confidence >= 95 together with a typosquatting
indicator, or more generally has confidence >= 80, and nothing is
emitted otherwise; an emitted safe notification auto-dismisses after a
fixed 10-second duration while a malicious one persists until
explicitly dismissed; concretely, malicious confidence 96 with
typosquatting persists, safe confidence 82 without typosquatting
auto-dismisses, and confidence 50 yields none. -/
theorem claim_C6_pageload_notification :
    (∀ (u : JStr) (t : Nat) (cache : SimCache) (now : Nat) (api : SimApiOutcome),
      (headMatches ("http://".toList) u || headMatches ("https://".toList) u) = true →
      (((pageLoadNotification (some u) (some t) cache now api).isSome = true)
        ↔ (((checkSimulation (some u) cache now api).result.is_malicious = true
              ∧ 95 ≤ (checkSimulation (some u) cache now api).result.confidence
              ∧ (checkSimulation (some u) cache now api).result.typosquatting_detected = true)
            ∨ 80 ≤ (checkSimulation (some u) cache now api).result.confidence))
      ∧ (∀ b, pageLoadNotification (some u) (some t) cache now api = some b →
          b.malicious = (checkSimulation (some u) cache now api).result.is_malicious
          ∧ b.autoDismissMs
              = (if (checkSimulation (some u) cache now api).result.is_malicious = true then none
                 else some 10000)))
    ∧ pageLoadNotification (some urlDapp) (some 1) emptyCache 0 (.ok simMal96)
        = some { malicious := true, confidence := 96, typosquatting := true
                 similarTo := some ("example-dapp.io"), autoDismissMs := none }
    ∧ pageLoadNotification (some urlDapp) (some 1) emptyCache 0 (.ok simSafe82)
        = some { malicious := false, confidence := 82, typosquatting := false
                 similarTo := none, autoDismissMs := some 10000 }
    ∧ pageLoadNotification (some urlDapp) (some 1) emptyCache 0 (.ok simConf50) = none := by
  refine ⟨?_, by decide, by decide, by decide⟩
  intro u t cache now api hhttp
  have hne : u ≠ [] := by
    intro h
    subst h
    exact absurd hhttp (by decide)
  have hhttp2 : (headMatches ['h', 't', 't', 'p', ':', '/', '/'] u
      || headMatches ['h', 't', 't', 'p', 's', ':', '/', '/'] u) = true := hhttp
  simp only [pageLoadNotification, pageLoadedHandler]
  rw [if_neg (by simp [List.isEmpty_iff, hne, hhttp2])]
  by_cases hc : (80 : ℚ) ≤ (checkSimulation (some u) cache now api).result.confidence
  · constructor
    · constructor
      · intro _
        exact Or.inr hc
      · intro _
        simp [hc, showSecurityBanner, not_lt.2 hc]
    · intro b hb
      simp only [Option.isSome_some, Bool.true_and] at hb
      rw [if_pos (by simp [hc])] at hb
      simp only [Option.some_bind, showSecurityBanner] at hb
      rw [if_neg (by simp [not_lt.2 hc])] at hb
      cases hb
      exact ⟨rfl, rfl⟩
  · have hnone : (if ((some t : Option Nat).isSome
        && decide (80 ≤ (checkSimulation (some u) cache now api).result.confidence)) = true
          then some (checkSimulation (some u) cache now api).result
          else none) = none := by
      simp [hc]
    constructor
    · rw [hnone]
      simp only [Option.none_bind, Option.isSome_none]
      constructor
      · intro hfalse
        exact absurd hfalse (by decide)
      · intro hor
        exfalso
        rcases hor with ⟨_, h95, _⟩ | h80
        · exact hc (le_trans (by norm_num) h95)
        · exact hc h80
    · intro b hb
      rw [hnone] at hb
      simp at hb

/-- Witness for claim C6 at the concrete malicious confidence-96
page-load. -/
theorem claim_C6_pageload_notification_witness :
    (headMatches ("http://".toList) urlDapp || headMatches ("https://".toList) urlDapp) = true
    ∧ ((((pageLoadNotification (some urlDapp) (some 1) emptyCache 0 (.ok simMal96)).isSome = true)
        ↔ (((checkSimulation (some urlDapp) emptyCache 0 (.ok simMal96)).result.is_malicious = true
              ∧ 95 ≤ (checkSimulation (some urlDapp) emptyCache 0 (.ok simMal96)).result.confidence
              ∧ (checkSimulation (some urlDapp) emptyCache 0
                  (.ok simMal96)).result.typosquatting_detected = true)
            ∨ 80 ≤ (checkSimulation (some urlDapp) emptyCache 0 (.ok simMal96)).result.confidence))
      ∧ (∀ b, pageLoadNotification (some urlDapp) (some 1) emptyCache 0 (.ok simMal96) = some b →
          b.malicious = (checkSimulation (some urlDapp) emptyCache 0 (.ok simMal96)).result.is_malicious
          ∧ b.autoDismissMs
              = (if (checkSimulation (some urlDapp) emptyCache 0
                    (.ok simMal96)).result.is_malicious = true then none
                 else some 10000))) :=
  ⟨by decide, claim_C6_pageload_notification.1 urlDapp 1 emptyCache 0 (.ok simMal96) (by decide)⟩

/-- Counterexample to claim C7 as stated: a concrete wallet request
whose page simulation reports malicious with confidence 90 (>= 85)
does get an interim warning verdict stored, but the normal scoring
verdict then overwrites it, and the finally stored verdict's reasons
are exactly the heuristic reasons — no simulation warning reason was
appended to them (no reason even mentions the word Simulation). -/
theorem claim_C7_counterexample :
    (checkSimulation (some ("http://evil.example/".toList)) emptyCache 0
        (.ok simMal90)).result.is_malicious = true
    ∧ 85 ≤ (checkSimulation (some ("http://evil.example/".toList)) emptyCache 0
        (.ok simMal90)).result.confidence
    ∧ ((walletRequestHandler { method := "eth_requestAccounts" }
        (some ("http://evil.example/".toList)) [] emptyCache emptyCache 0
        (.ok simMal90) (.error ("ml down"))).interim).isSome = true
    ∧ (walletRequestHandler { method := "eth_requestAccounts" }
        (some ("http://evil.example/".toList)) [] emptyCache emptyCache 0
        (.ok simMal90) (.error ("ml down"))).final.reasons
        = ["Wallet connection requested"]
    ∧ ∀ r ∈ (walletRequestHandler { method := "eth_requestAccounts" }
        (some ("http://evil.example/".toList)) [] emptyCache emptyCache 0
        (.ok simMal90) (.error ("ml down"))).final.reasons,
        strContains r.toList ("Simulation".toList) = false := by
  decide

/-- Claim C7, amended: during a WalletRequest evaluation the response
always carries blocked = false (the wallet call is never
hard-blocked); when the Simulation signal for the page origin reports
malicious with confidence >= 85, warning reasons are placed on an
interim stored verdict (whose reasons open with the simulation
warning), but the subsequent normal-scoring verdict overwrites that
store: the final verdict's reasons are exactly the normal scoring
reasons, with the raw simulation result attached as a separate field
rather than as a reason. -/
theorem claim_C7_amended (payload : WalletReq) (tabUrl : Option JStr)
    (entries : List DarklistEntry) (mlCache : MLCache) (simCache : SimCache)
    (now : Nat) (simApi : SimApiOutcome) (mlApi : Except String MLApiData) :
    (walletRequestHandler payload tabUrl entries mlCache simCache now simApi mlApi).responseBlocked
        = false
    ∧ (walletRequestHandler payload tabUrl entries mlCache simCache now simApi mlApi).final.reasons
        = (scoreRequest payload entries mlCache now mlApi).analysis.reasons
    ∧ (walletRequestHandler payload tabUrl entries mlCache simCache now simApi mlApi).final.simulation
        = some (checkSimulation tabUrl simCache now simApi).result
    ∧ ((checkSimulation tabUrl simCache now simApi).result.is_malicious = true →
        85 ≤ (checkSimulation tabUrl simCache now simApi).result.confidence →
        (walletRequestHandler payload tabUrl entries mlCache simCache now simApi mlApi).interim
            = some (simWarnAnalysis payload.method
                (checkSimulation tabUrl simCache now simApi).result)
        ∧ (simWarnAnalysis payload.method
            (checkSimulation tabUrl simCache now simApi).result).reasons.head?
            = some ("⚠️ Simulation detected "
                ++ toString (checkSimulation tabUrl simCache now simApi).result.confidence
                ++ "% malicious confidence")) := by
  refine ⟨rfl, ?_, ?_, ?_⟩
  · simp [walletRequestHandler]
  · simp [walletRequestHandler]
  · intro hm hc
    constructor
    · simp [walletRequestHandler, hm, hc]
    · simp [simWarnAnalysis]

/-- Witness for claim C7 at the concrete malicious confidence-90
page with an eth_requestAccounts wallet request. -/
theorem claim_C7_amended_witness :
    (checkSimulation (some ("http://evil.example/".toList)) emptyCache 0
        (.ok simMal90)).result.is_malicious = true
    ∧ 85 ≤ (checkSimulation (some ("http://evil.example/".toList)) emptyCache 0
        (.ok simMal90)).result.confidence
    ∧ ((walletRequestHandler { method := "eth_requestAccounts" }
          (some ("http://evil.example/".toList)) [] emptyCache emptyCache 0
          (.ok simMal90) (.error ("ml down"))).interim
        = some (simWarnAnalysis ({ method := "eth_requestAccounts" } : WalletReq).method
            (checkSimulation (some ("http://evil.example/".toList)) emptyCache 0
              (.ok simMal90)).result)
      ∧ (simWarnAnalysis ({ method := "eth_requestAccounts" } : WalletReq).method
          (checkSimulation (some ("http://evil.example/".toList)) emptyCache 0
            (.ok simMal90)).result).reasons.head?
          = some ("⚠️ Simulation detected "
              ++ toString (checkSimulation (some ("http://evil.example/".toList)) emptyCache 0
                  (.ok simMal90)).result.confidence
              ++ "% malicious confidence")) :=
  ⟨by decide, by decide,
    (claim_C7_amended { method := "eth_requestAccounts" }
      (some ("http://evil.example/".toList)) [] emptyCache emptyCache 0
      (.ok simMal90) (.error ("ml down"))).2.2.2 (by decide) (by decide)⟩
